import Mathlib

/-!
Verification of the OpenAct FraudOps control tower against its specification.

This file shallowly embeds the decision, scoring, feature, audit and
monitoring services of the repository in Lean 4 and proves (or refutes)
the spec's claims about them.  Python floats are modelled as exact
rationals (`ℚ`) except where a transcendental function (`exp`, `log`)
forces the reals; strings are Lean `String`s; Redis state is an explicit
function from keys to values, threaded through each operation.
-/

namespace FraudOps

/-! ## Decision policy (`decision-svc/app/policy.py`, `config.py`) -/

/-- Default `BLOCK_THRESHOLD` from `decision-svc/app/config.py`. -/
def BLOCK_THRESHOLD : ℚ := 90/100

/-- Default `HOLD_THRESHOLD` from `decision-svc/app/config.py`. -/
def HOLD_THRESHOLD : ℚ := 70/100

/-- Default `TRUSTED_CHANNELS` from `decision-svc/app/config.py`. -/
def TRUSTED_CHANNELS : List String := ["mobile"]

/-- The slice of the `/decide` payload read by `policy.decide`:
`payload["scores"]["calibrated"]`, `payload["features"]["velocity_1h"]`,
`payload["features"]["ip_risk"]` (defaulting to 0 when absent, which we
model by the caller passing 0) and `payload["channel"]` (`none` models an
absent key). -/
structure ScorePayload where
  calibrated : ℚ
  velocity_1h : ℚ
  ip_risk : ℚ
  channel : Option String

/-- Python `payload.get("channel") in settings.TRUSTED_CHANNELS`: an absent
channel (`None`) is not a member of the list. -/
def channelIsTrusted : Option String → Bool
  | none => false
  | some c => TRUSTED_CHANNELS.contains c

/-- Embedding of `decide` from `decision-svc/app/policy.py`: build the
reason list in source order (`velocity_high`, `ip_proxy_match`,
`untrusted_channel`), then apply the primary thresholds. -/
def decide (p : ScorePayload) : String × List String :=
  let reasons1 : List String := if p.velocity_1h ≥ 8 then ["velocity_high"] else []
  let reasons2 : List String :=
    if p.ip_risk ≥ 8/10 then reasons1 ++ ["ip_proxy_match"] else reasons1
  let reasons : List String :=
    if channelIsTrusted p.channel then reasons2 else reasons2 ++ ["untrusted_channel"]
  if p.calibrated ≥ BLOCK_THRESHOLD ∨ ("ip_proxy_match" ∈ reasons ∧ p.calibrated ≥ 80/100) then
    ("block", reasons)
  else if p.calibrated ≥ HOLD_THRESHOLD ∨ "velocity_high" ∈ reasons then
    ("hold", reasons)
  else
    ("allow", reasons)

/-! ## Rules score (`score-svc/main.py`, `compute_rule_score`) -/

/-- The numeric slice of a feature vector used by the scoring service
(`shared/schemas/features.py` fields read by `extract_features` and
`compute_rule_score`). -/
structure FeatureVec where
  amount : ℚ
  velocity_1h : ℚ
  velocity_24h : ℚ
  velocity_7d : ℚ
  ip_risk : ℚ
  geo_distance_km : ℚ
  merchant_risk : ℚ
  age_days : ℚ

/-- Embedding of `compute_rule_score` from `score-svc/main.py`.  The Python
guard `if feature_vector.amount and feature_vector.amount > 10000` is the
conjunction `amount ≠ 0 ∧ amount > 10000` (`0` and `None` are falsy; a
missing amount is modelled as 0). -/
def compute_rule_score (fv : FeatureVec) : ℚ :=
  let s1 : ℚ := if fv.amount ≠ 0 ∧ fv.amount > 10000 then 0 + 3/10 else 0
  let s2 : ℚ := if fv.velocity_1h > 10 then s1 + 4/10
    else if fv.velocity_1h > 5 then s1 + 2/10 else s1
  let s3 : ℚ := if fv.ip_risk > 8/10 then s2 + 3/10
    else if fv.ip_risk > 5/10 then s2 + 1/10 else s2
  let s4 : ℚ := if fv.geo_distance_km > 1000 then s3 + 2/10
    else if fv.geo_distance_km > 500 then s3 + 1/10 else s3
  let s5 : ℚ := if fv.merchant_risk > 7/10 then s4 + 2/10 else s4
  min s5 1

/-- The rules score exactly as the spec words it: the sum of the five
weighted predicates, clamped to at most 1. -/
def rulesScoreSpec (fv : FeatureVec) : ℚ :=
  min ((if fv.amount > 10000 then (3:ℚ)/10 else 0)
    + (if fv.velocity_1h > 10 then (4:ℚ)/10 else if fv.velocity_1h > 5 then 2/10 else 0)
    + (if fv.ip_risk > 8/10 then (3:ℚ)/10 else if fv.ip_risk > 5/10 then 1/10 else 0)
    + (if fv.geo_distance_km > 1000 then (2:ℚ)/10 else if fv.geo_distance_km > 500 then 1/10 else 0)
    + (if fv.merchant_risk > 7/10 then (2:ℚ)/10 else 0)) 1

/-- An amount strictly greater than 10000 is in particular nonzero, so the
Python truthiness guard collapses to the comparison. -/
theorem amount_guard (a : ℚ) : (a ≠ 0 ∧ a > 10000) ↔ a > 10000 := by
  constructor
  · exact fun h => h.2
  · intro h
    exact ⟨by positivity, h⟩

/-- C2.  Baseline decision rules with default thresholds: `decide` returns
`block` iff `calibrated ≥ 0.90` or (`ip_risk ≥ 0.8` and `calibrated ≥ 0.80`);
otherwise `hold` iff `calibrated ≥ 0.70` or `velocity_1h ≥ 8`; otherwise
`allow`; and the reasons contain `velocity_high` iff `velocity_1h ≥ 8`,
`ip_proxy_match` iff `ip_risk ≥ 0.8`, and `untrusted_channel` iff the channel
is not the trusted `mobile` channel. -/
theorem decide_baseline_rules (p : ScorePayload) :
    ((decide p).1 = "block" ↔
      (p.calibrated ≥ 90/100 ∨ (p.ip_risk ≥ 8/10 ∧ p.calibrated ≥ 80/100)))
    ∧ (¬(p.calibrated ≥ 90/100 ∨ (p.ip_risk ≥ 8/10 ∧ p.calibrated ≥ 80/100)) →
        ((decide p).1 = "hold" ↔ (p.calibrated ≥ 70/100 ∨ p.velocity_1h ≥ 8)))
    ∧ (¬(p.calibrated ≥ 90/100 ∨ (p.ip_risk ≥ 8/10 ∧ p.calibrated ≥ 80/100)) →
        ¬(p.calibrated ≥ 70/100 ∨ p.velocity_1h ≥ 8) →
        (decide p).1 = "allow")
    ∧ ("velocity_high" ∈ (decide p).2 ↔ p.velocity_1h ≥ 8)
    ∧ ("ip_proxy_match" ∈ (decide p).2 ↔ p.ip_risk ≥ 8/10)
    ∧ ("untrusted_channel" ∈ (decide p).2 ↔ p.channel ≠ some "mobile") := by
  have hch : channelIsTrusted p.channel = true ↔ p.channel = some "mobile" := by
    cases p.channel with
    | none => simp [channelIsTrusted]
    | some c => simp [channelIsTrusted, TRUSTED_CHANNELS]
  by_cases hv : p.velocity_1h ≥ 8 <;>
    by_cases hi : p.ip_risk ≥ 8/10 <;>
    by_cases hc : channelIsTrusted p.channel = true <;>
    simp only [decide, BLOCK_THRESHOLD, HOLD_THRESHOLD, hv, hi, hc, if_true, if_false,
      if_pos, if_neg, ← hch] <;>
    split_ifs <;>
    simp_all

/-- A concrete `/decide` payload: calibrated 0.75, velocity 3, ip_risk 0.4,
channel web (scenario 2 of the spec's seed suite). -/
def scenario2Payload : ScorePayload :=
  { calibrated := 75/100, velocity_1h := 3, ip_risk := 4/10, channel := some "web" }

/-- Witness for C2: at scenario 2 the inner hypotheses are discharged
concretely and the theorem yields the `hold` action. -/
theorem decide_baseline_rules_witness : (decide scenario2Payload).1 = "hold" := by
  have h := (decide_baseline_rules scenario2Payload).2.1 (by norm_num [scenario2Payload])
  exact h.mpr (Or.inl (by norm_num [scenario2Payload]))

set_option maxHeartbeats 2000000 in
/-- The rules score of `score-svc/main.py` equals the claimed baseline sum
of weighted predicates clamped at 1, and lies in `[0, 1]` (helper for the
amended C4 theorem below). -/
theorem compute_rule_score_spec (fv : FeatureVec) :
    compute_rule_score fv = rulesScoreSpec fv
    ∧ 0 ≤ compute_rule_score fv ∧ compute_rule_score fv ≤ 1 := by
  simp only [compute_rule_score, rulesScoreSpec, amount_guard]
  split_ifs <;> norm_num

/-! ## Ensemble score (`score-svc/main.py`, `compute_ensemble_score`;
`score-svc/app/models.py`, `Ensemble`) -/

/-- Ensemble weight for the XGBoost score in `compute_ensemble_score`
(`score-svc/main.py`, `weights['xgb']`). -/
def W_XGB : ℚ := 5/10

/-- Ensemble weight for the neural score (`weights['nn']`). -/
def W_NN : ℚ := 3/10

/-- Ensemble weight for the rules score (`weights['rules']`). -/
def W_RULES : ℚ := 2/10

/-- Embedding of `compute_ensemble_score` from `score-svc/main.py`. -/
def compute_ensemble_score (xgb_score nn_score rules_score : ℚ) : ℚ :=
  W_XGB * xgb_score + W_NN * nn_score + W_RULES * rules_score

/-- The feature dict consumed by the models in `score-svc/app/models.py`. -/
structure AppFeats where
  velocity_1h : ℚ
  ip_risk : ℚ
  merchant_risk : ℚ
  geo_distance_km : ℚ
  amount : ℚ

/-- Embedding of `XGBModel.predict_proba` from `score-svc/app/models.py`. -/
def xgbModelPredictProba (f : AppFeats) : ℚ :=
  min 1 (15/100 + 1/2 * f.ip_risk + 1/100 * f.velocity_1h)

/-- Embedding of `NNModel.predict_proba` from `score-svc/app/models.py`. -/
def nnModelPredictProba (f : AppFeats) : ℚ :=
  min 1 (1/10 + 35/100 * f.merchant_risk + 1/1000 * f.geo_distance_km)

/-- Embedding of `rules_score` from `score-svc/app/models.py`. -/
def rules_score (f : AppFeats) : ℚ :=
  let s1 : ℚ := if f.velocity_1h ≥ 8 then 0 + 35/100 else 0
  let s2 : ℚ := if f.ip_risk ≥ 8/10 then s1 + 35/100 else s1
  let s3 : ℚ := if f.amount ≥ 2000 then s2 + 2/10 else s2
  min 1 s3

/-- The app-module rules formula as the amended C4 claim words it: `+0.35`
if `velocity_1h ≥ 8`, `+0.35` if `ip_risk ≥ 0.8`, `+0.2` if
`amount ≥ 2000`, clamped to at most 1. -/
def appRulesScoreSpec (f : AppFeats) : ℚ :=
  min 1 ((if f.velocity_1h ≥ 8 then (35:ℚ)/100 else 0)
    + (if f.ip_risk ≥ 8/10 then (35:ℚ)/100 else 0)
    + (if f.amount ≥ 2000 then (2:ℚ)/10 else 0))

/-- A feature dict on which the two rules implementations disagree: amount
exactly 2000 and every other feature 0. -/
def c4Feats : AppFeats :=
  { velocity_1h := 0, ip_risk := 0, merchant_risk := 0, geo_distance_km := 0, amount := 2000 }

/-- The same features as a scoring-service feature vector. -/
def c4FeatureVec : FeatureVec :=
  { amount := 2000, velocity_1h := 0, velocity_24h := 0, velocity_7d := 0, ip_risk := 0,
    geo_distance_km := 0, merchant_risk := 0, age_days := 0 }

/-- C4 counterexample: the claim's baseline formula fails on the cited
`rules_score` of `score-svc/app/models.py` — at `amount = 2000` and all
other features 0 the app rules score is `0.2` while the claimed baseline
sum is `0`. -/
theorem rules_score_baseline_counterexample :
    ¬ (rules_score c4Feats = rulesScoreSpec c4FeatureVec) := by
  norm_num [rules_score, rulesScoreSpec, c4Feats, c4FeatureVec]

set_option maxHeartbeats 2000000 in
/-- C4 amended.  `compute_rule_score` (`score-svc/main.py`) equals the
shipped baseline sum of weighted predicates clamped at 1; the app-module
`rules_score` (`score-svc/app/models.py`) instead computes `+0.35` if
`velocity_1h ≥ 8`, `+0.35` if `ip_risk ≥ 0.8` and `+0.2` if
`amount ≥ 2000`, clamped at 1; both lie in `[0, 1]`. -/
theorem rule_scores_baseline_and_app :
    (∀ fv : FeatureVec, compute_rule_score fv = rulesScoreSpec fv
      ∧ 0 ≤ compute_rule_score fv ∧ compute_rule_score fv ≤ 1)
    ∧ (∀ f : AppFeats, rules_score f = appRulesScoreSpec f
      ∧ 0 ≤ rules_score f ∧ rules_score f ≤ 1) := by
  refine ⟨compute_rule_score_spec, fun f => ?_⟩
  simp only [rules_score, appRulesScoreSpec]
  split_ifs <;> norm_num

/-- Python's bankers rounding (`round`) of a rational to an integer: round
half to even. -/
def roundHalfEven (q : ℚ) : ℤ :=
  let n := ⌊q⌋
  if q - n < 1/2 then n
  else if 1/2 < q - n then n + 1
  else if Even n then n else n + 1

/-- Python `round(x, 4)` on an exactly representable value. -/
def pyRound4 (x : ℚ) : ℚ := (roundHalfEven (x * 10000) : ℚ) / 10000

/-- Default constructor weights of `Ensemble` in `score-svc/app/models.py`:
`w_xgb=0.5, w_nn=0.4, w_rules=0.1`. -/
def ENSEMBLE_DEFAULT_W : ℚ × ℚ × ℚ := (5/10, 4/10, 1/10)

/-- The numeric fields of the dict returned by `Ensemble.score`
(`score-svc/app/models.py`); the `calibrated` and `explain` fields are
modelled separately (`calibrate_score` below) since they are not rational. -/
structure EnsembleScoreOut where
  xgb : ℚ
  nn : ℚ
  rules : ℚ
  ensemble : ℚ

/-- Embedding of `Ensemble.score` from `score-svc/app/models.py` with
weights `w`: sub-scores from the two model stubs and `rules_score`, the raw
weighted sum, all rounded to 4 decimals as in the source. -/
def ensembleScore (w : ℚ × ℚ × ℚ) (f : AppFeats) : EnsembleScoreOut :=
  let sx := xgbModelPredictProba f
  let sn := nnModelPredictProba f
  let sr := rules_score f
  let raw := w.1 * sx + w.2.1 * sn + w.2.2 * sr
  { xgb := pyRound4 sx, nn := pyRound4 sn, rules := pyRound4 sr, ensemble := pyRound4 raw }

/-- A feature dict on which the two default weightings disagree:
`merchant_risk = 1`, everything else 0. -/
def c5Feats : AppFeats :=
  { velocity_1h := 0, ip_risk := 0, merchant_risk := 1, geo_distance_km := 0, amount := 0 }

/-- C5 counterexample: `Ensemble` with its default constructor weights
`(0.5, 0.4, 0.1)` produces an ensemble score that differs from the weighted
sum with the claimed default weights `(0.5, 0.3, 0.2)` by far more than
`1e-9` (0.255 against 0.21). -/
theorem ensemble_default_weights_counterexample :
    ¬ (|(ensembleScore ENSEMBLE_DEFAULT_W c5Feats).ensemble -
        (5/10 * (ensembleScore ENSEMBLE_DEFAULT_W c5Feats).xgb +
         3/10 * (ensembleScore ENSEMBLE_DEFAULT_W c5Feats).nn +
         2/10 * (ensembleScore ENSEMBLE_DEFAULT_W c5Feats).rules)| < 1/1000000000) := by
  norm_num [ensembleScore, ENSEMBLE_DEFAULT_W, c5Feats, xgbModelPredictProba,
    nnModelPredictProba, rules_score, pyRound4, roundHalfEven]
  rw [show |(9:ℚ)/200| = 9/200 from abs_of_nonneg (by norm_num)]
  norm_num

/-- C5 amended.  `compute_ensemble_score` (`score-svc/main.py`) is exactly
the weighted sum with weights `(0.5, 0.3, 0.2)` which sum to 1; the
`Ensemble` class (`score-svc/app/models.py`) uses default constructor
weights `(0.5, 0.4, 0.1)`, which also sum to 1, and its ensemble output is
the 4-decimal rounding of the weighted sum of its sub-scores with those
weights. -/
theorem ensemble_weight_consistency :
    (∀ x n r : ℚ, compute_ensemble_score x n r = 5/10 * x + 3/10 * n + 2/10 * r)
    ∧ W_XGB + W_NN + W_RULES = 1
    ∧ (∀ f : AppFeats, (ensembleScore ENSEMBLE_DEFAULT_W f).ensemble =
        pyRound4 (5/10 * xgbModelPredictProba f + 4/10 * nnModelPredictProba f
          + 1/10 * rules_score f))
    ∧ ENSEMBLE_DEFAULT_W.1 + ENSEMBLE_DEFAULT_W.2.1 + ENSEMBLE_DEFAULT_W.2.2 = 1 := by
  refine ⟨fun x n r => rfl, by norm_num [W_XGB, W_NN, W_RULES], fun f => rfl, by
    norm_num [ENSEMBLE_DEFAULT_W]⟩

/-! ## Calibration (`score-svc/main.py`, `calibrate_score`) -/

/-- Embedding of `calibrate_score` from `score-svc/main.py`: the fixed
Platt logistic `1 / (1 + exp(-5 * (s - 0.5)))`. -/
noncomputable def calibrate_score (ensemble_score : ℝ) : ℝ :=
  1 / (1 + Real.exp (-5 * (ensemble_score - 5/10)))

/-- C6.  Calibration is the fixed Platt logistic, lies in `[0, 1]`, and is
strictly monotone. -/
theorem calibrate_score_platt_monotone :
    (∀ s : ℝ, calibrate_score s = 1 / (1 + Real.exp (-5 * (s - 1/2))))
    ∧ (∀ s : ℝ, 0 ≤ calibrate_score s ∧ calibrate_score s ≤ 1)
    ∧ (∀ x y : ℝ, x < y → calibrate_score x < calibrate_score y) := by
  have hpos : ∀ s : ℝ, 0 < 1 + Real.exp (-5 * (s - 5/10)) := fun s => by
    have := Real.exp_pos (-5 * (s - 5/10))
    linarith
  refine ⟨fun s => by norm_num [calibrate_score], fun s => ?_, fun x y hxy => ?_⟩
  · constructor
    · rw [calibrate_score]
      positivity
    · rw [calibrate_score, div_le_one (hpos s)]
      have := Real.exp_pos (-5 * (s - 5/10))
      linarith
  · have harg : -5 * (y - 5/10) < -5 * (x - 5/10) := by linarith
    have hexp : Real.exp (-5 * (y - 5/10)) < Real.exp (-5 * (x - 5/10)) :=
      Real.exp_lt_exp.mpr harg
    have hy : 0 < 1 + Real.exp (-5 * (y - 5/10)) := hpos y
    exact one_div_lt_one_div_of_lt hy (by linarith)

/-- Witness for C6 at the concrete pair `0 < 1`. -/
theorem calibrate_score_platt_monotone_witness :
    calibrate_score 0 < calibrate_score 1 :=
  calibrate_score_platt_monotone.2.2 0 1 (by norm_num)

/-! ## Velocity counters (`feature-svc/main.py`) -/

/-- The Redis counter store: every key holds a natural number, 0 standing
for an absent key (`GET` of a missing key yields `None`, which
`get_velocity_counts` turns into 0, and `INCR` of a missing key yields 1). -/
def KVStore : Type := String → ℕ

/-- The Redis key `velocity:<entity>:<window>` used by both
`get_velocity_counts` and `update_velocity_counts`. -/
def velocityKey (entity window : String) : String :=
  "velocity:" ++ entity ++ ":" ++ window

/-- The `time_windows` list of `process_event` (`feature-svc/main.py`). -/
def time_windows : List String := ["1h", "24h", "7d"]

/-- Embedding of `get_velocity_counts` from `feature-svc/main.py`: read
each window's counter, labelled `velocity_<window>`. -/
def get_velocity_counts (store : KVStore) (entity_id : String)
    (windows : List String) : List (String × ℕ) :=
  windows.map (fun w => ("velocity_" ++ w, store (velocityKey entity_id w)))

/-- Embedding of `update_velocity_counts` from `feature-svc/main.py`: an
`INCR` of each window's counter (the TTLs it also sets are not part of the
counter values). -/
def update_velocity_counts (store : KVStore) (entity_id : String)
    (windows : List String) : KVStore :=
  windows.foldl
    (fun st w k => if k = velocityKey entity_id w then st k + 1 else st k) store

/-- The velocity slice of `process_event` (`feature-svc/main.py`): read the
three counters, then increment them, and place the read values (defaulting
to 0 on a missing label) into the emitted feature vector. -/
def process_event_velocity (store : KVStore) (entity_id : String) :
    (ℕ × ℕ × ℕ) × KVStore :=
  let velocity_counts := get_velocity_counts store entity_id time_windows
  let store' := update_velocity_counts store entity_id time_windows
  (((velocity_counts.lookup "velocity_1h").getD 0,
    (velocity_counts.lookup "velocity_24h").getD 0,
    (velocity_counts.lookup "velocity_7d").getD 0), store')

/-- Velocity keys of one entity with distinct windows are distinct
strings. -/
theorem velocityKey_ne (e : String) {w1 w2 : String} (h : w1 ≠ w2) :
    velocityKey e w1 ≠ velocityKey e w2 := by
  intro hk
  apply h
  have hd := congrArg String.data hk
  simp only [velocityKey, String.data_append] at hd
  have hw := List.append_cancel_left hd
  exact congrArg String.mk hw

/-- C3.  The velocity feature excludes the current event: the three values
placed in the feature vector are the counter values before this event's
increment, and after processing each counter equals its prior value plus
one. -/
theorem process_event_velocity_excludes_current (store : KVStore) (entity_id : String) :
    (process_event_velocity store entity_id).1.1 = store (velocityKey entity_id "1h")
    ∧ (process_event_velocity store entity_id).1.2.1 = store (velocityKey entity_id "24h")
    ∧ (process_event_velocity store entity_id).1.2.2 = store (velocityKey entity_id "7d")
    ∧ (process_event_velocity store entity_id).2 (velocityKey entity_id "1h")
        = store (velocityKey entity_id "1h") + 1
    ∧ (process_event_velocity store entity_id).2 (velocityKey entity_id "24h")
        = store (velocityKey entity_id "24h") + 1
    ∧ (process_event_velocity store entity_id).2 (velocityKey entity_id "7d")
        = store (velocityKey entity_id "7d") + 1 := by
  have h12 := velocityKey_ne entity_id (show "1h" ≠ "24h" by decide)
  have h13 := velocityKey_ne entity_id (show "1h" ≠ "7d" by decide)
  have h23 := velocityKey_ne entity_id (show "24h" ≠ "7d" by decide)
  refine ⟨rfl, rfl, rfl, ?_, ?_, ?_⟩ <;>
    simp [process_event_velocity, update_velocity_counts, time_windows,
      h12, h13, h23, Ne.symm h12, Ne.symm h13, Ne.symm h23]

/-! ## Graph anomaly (`decision-svc/main.py`, `check_graph_anomaly`) -/

/-- The Redis set store used by the graph-anomaly detector: each key holds
a set of entity identifiers (`SCARD` is `Finset.card`, `SADD` is
`insert`). -/
def SetStore : Type := String → Finset String

/-- Embedding of `check_graph_anomaly` from `decision-svc/main.py`: with no
(or an empty) device fingerprint return `false` and leave the store alone;
otherwise read the cardinality of `device_accounts:<device>`, add the
current entity to the set (its 30-day TTL is not modelled), and flag iff the
count read before the insertion exceeds 5. -/
def check_graph_anomaly (entity_id : String) (device_fingerprint : Option String)
    (store : SetStore) : Bool × SetStore :=
  match device_fingerprint with
  | none => (false, store)
  | some d =>
    if d = "" then (false, store)
    else
      let device_accounts_key := "device_accounts:" ++ d
      let account_count := (store device_accounts_key).card
      let store' : SetStore := fun k =>
        if k = device_accounts_key then insert entity_id (store device_accounts_key)
        else store k
      (if account_count > 5 then true else false, store')

/-- A store whose device `dev1` has already been seen with exactly five
entities, none of them `e6`. -/
def c7Store : SetStore := fun k =>
  if k = "device_accounts:dev1" then {"e1", "e2", "e3", "e4", "e5"} else ∅

/-- C7 counterexample: with five prior entities on the device and a new
sixth entity, the set after insertion has 6 > 5 members, yet
`check_graph_anomaly` returns `false` — the flag tests the count before the
current event is inserted, not after. -/
theorem check_graph_anomaly_counterexample :
    ¬ (((check_graph_anomaly "e6" (some "dev1") c7Store).1 = true) ↔
        (insert "e6" (c7Store "device_accounts:dev1")).card > 5) := by
  decide

/-- C7 amended.  For a non-empty device fingerprint,
`check_graph_anomaly` returns `true` iff the number of distinct entities
associated with the device before the current entity is inserted exceeds 5;
the store afterwards holds the prior set with the current entity inserted. -/
theorem check_graph_anomaly_pre_insert (entity_id d : String) (hd : d ≠ "")
    (store : SetStore) :
    ((check_graph_anomaly entity_id (some d) store).1 = true ↔
      (store ("device_accounts:" ++ d)).card > 5)
    ∧ (check_graph_anomaly entity_id (some d) store).2 ("device_accounts:" ++ d)
        = insert entity_id (store ("device_accounts:" ++ d)) := by
  constructor
  · simp [check_graph_anomaly, hd]
  · simp [check_graph_anomaly, hd]

/-- Witness for C7 (amended) at the concrete counterexample store. -/
theorem check_graph_anomaly_pre_insert_witness :
    ((check_graph_anomaly "e6" (some "dev1") c7Store).1 = true ↔
      (c7Store "device_accounts:dev1").card > 5) :=
  (check_graph_anomaly_pre_insert "e6" "dev1" (by decide) c7Store).1

/-! ## Decision engine (`decision-svc/main.py`, `make_decision` with the
default policy of `load_decision_policy`) -/

/-- The score fields extracted into `score_data` by `make_decision`. -/
structure ModelScoresData where
  calibrated : ℚ
  xgb : ℚ
  nn : ℚ
  rules : ℚ
  ensemble : ℚ

/-- One condition dict of the default policy: optional `calibrated_score`
bounds (`gte`, `lt`) and the presence flags of the `watchlist_hit`,
`conflicting_signals` and `velocity_normal` keys. -/
structure PolicyCondition where
  calibrated_gte : Option ℚ := none
  calibrated_lt : Option ℚ := none
  has_watchlist_hit : Bool := false
  has_conflicting_signals : Bool := false
  has_velocity_normal : Bool := false

/-- The population variance of the three sub-scores computed inside
`evaluate_conditions` for the `conflicting_signals` key. -/
def score_variance (sd : ModelScoresData) : ℚ :=
  let mean := (sd.xgb + sd.nn + sd.rules) / 3
  ((sd.xgb - mean)^2 + (sd.nn - mean)^2 + (sd.rules - mean)^2) / 3

/-- The body of the `for condition in conditions` loop of
`evaluate_conditions` (`decision-svc/main.py`): each `continue` makes the
condition fail, and reaching the end of the body means it is met.  The
`watchlist_hit` and `velocity_normal` keys always `continue`; a
`conflicting_signals` key continues when the variance is below 0.1. -/
def condition_met (sd : ModelScoresData) (c : PolicyCondition) : Bool :=
  if (match c.calibrated_gte with
      | some g => sd.calibrated < g
      | none => false : Bool) then false
  else if (match c.calibrated_lt with
      | some l => sd.calibrated ≥ l
      | none => false : Bool) then false
  else if c.has_watchlist_hit then false
  else if c.has_conflicting_signals && (score_variance sd < 1/10 : Bool) then false
  else if c.has_velocity_normal then false
  else true

/-- Embedding of `evaluate_conditions`: some condition of the list is
met. -/
def evaluate_conditions (sd : ModelScoresData) (conditions : List PolicyCondition) : Bool :=
  conditions.any (condition_met sd)

/-- The `block` rule of the default policy in `load_decision_policy`. -/
def default_block_rule : List PolicyCondition × String × List String :=
  ([{ calibrated_gte := some (90/100) },
    { calibrated_gte := some (80/100), has_watchlist_hit := true }],
   "block", ["high_risk_score", "watchlist_match"])

/-- The `hold` rule of the default policy. -/
def default_hold_rule : List PolicyCondition × String × List String :=
  ([{ calibrated_gte := some (70/100), calibrated_lt := some (90/100) },
    { has_conflicting_signals := true }],
   "hold", ["medium_risk", "conflicting_signals"])

/-- The `allow` rule of the default policy. -/
def default_allow_rule : List PolicyCondition × String × List String :=
  ([{ calibrated_lt := some (70/100) },
    { has_velocity_normal := true }],
   "allow", ["low_risk", "normal_velocity"])

/-- The severity-ordered rule list `[block, hold, allow]` that
`make_decision` walks. -/
def default_policy_rules : List (List PolicyCondition × String × List String) :=
  [default_block_rule, default_hold_rule, default_allow_rule]

/-- The first matching rule's action and reason codes, defaulting to
`("allow", [])` as in `make_decision`. -/
def first_matching_rule (sd : ModelScoresData) :
    List (List PolicyCondition × String × List String) → String × List String
  | [] => ("allow", [])
  | r :: rest =>
    if evaluate_conditions sd r.1 then (r.2.1, r.2.2) else first_matching_rule sd rest

/-- The fields of `DecisionOutput` that `make_decision` computes (identifier,
risk score and timing fields are pass-through). -/
structure DecisionOut where
  action : String
  reasons : List String
  case_id : Option String
  watchlist_hits : List String
  velocity_anomaly : Bool
  graph_anomaly : Bool

/-- Python `str.upper()` restricted to the ASCII strings it is applied to
here: uppercase every character. -/
def pyUpper (s : String) : String := ⟨s.data.map Char.toUpper⟩

/-- The watchlist override step of `make_decision`: any watchlist hit forces
`block` when `calibrated ≥ 0.8` and `hold` otherwise, extending the reasons
with the hit labels. -/
def apply_watchlist_override (sd : ModelScoresData) (watchlist_hits : List String)
    (base : String × List String) : String × List String :=
  if watchlist_hits ≠ [] then
    if sd.calibrated ≥ 8/10 then ("block", base.2 ++ watchlist_hits)
    else ("hold", base.2 ++ watchlist_hits)
  else base

/-- The anomaly override steps of `make_decision`: when the flag is set,
upgrade `allow` to `hold` and append the reason code. -/
def apply_anomaly_override (flag : Bool) (reason : String)
    (ar : String × List String) : String × List String :=
  if flag then
    (if ar.1 = "allow" then "hold" else ar.1, ar.2 ++ [reason])
  else ar

/-- Embedding of `make_decision` from `decision-svc/main.py` under the
default policy.  The side signals are inputs: `watchlist_hits` is
`check_watchlist`'s result, `graph_anomaly` is `check_graph_anomaly`'s flag,
and `velocity_anomaly` is the constant `False` of the source.  `uuid8` is
the first eight characters of `str(uuid.uuid4())` drawn for the case id. -/
def make_decision (sd : ModelScoresData) (watchlist_hits : List String)
    (graph_anomaly : Bool) (uuid8 : String) : DecisionOut :=
  let velocity_anomaly := false
  let base := first_matching_rule sd default_policy_rules
  let afterWatch := apply_watchlist_override sd watchlist_hits base
  let afterVel := apply_anomaly_override velocity_anomaly "velocity_anomaly" afterWatch
  let afterGraph := apply_anomaly_override graph_anomaly "graph_anomaly" afterVel
  let case_id : Option String :=
    if afterGraph.1 = "hold" ∨ afterGraph.1 = "block" ∨ afterGraph.1 = "escalate" then
      some ("CASE-" ++ pyUpper uuid8)
    else none
  { action := afterGraph.1, reasons := afterGraph.2, case_id := case_id,
    watchlist_hits := watchlist_hits, velocity_anomaly := velocity_anomaly,
    graph_anomaly := graph_anomaly }

/-- The decimal digits. -/
def decimalChars : List Char := ['0','1','2','3','4','5','6','7','8','9']

/-- Lowercase hexadecimal digits — the alphabet of the leading eight
characters of `str(uuid.uuid4())`. -/
def lowerHexChars : List Char := decimalChars ++ ['a','b','c','d','e','f']

/-- Uppercase hexadecimal digits. -/
def upperHexChars : List Char := decimalChars ++ ['A','B','C','D','E','F']

/-- Membership test for lowercase hexadecimal digits. -/
def isLowerHexChar (c : Char) : Bool := if c ∈ lowerHexChars then true else false

/-- Membership test for uppercase hexadecimal digits. -/
def isUpperHexChar (c : Char) : Bool := if c ∈ upperHexChars then true else false

/-- Uppercasing a lowercase hexadecimal digit yields an uppercase
hexadecimal digit. -/
theorem lowerHex_toUpper {c : Char} (h : isLowerHexChar c = true) :
    isUpperHexChar c.toUpper = true := by
  have hm : c ∈ lowerHexChars := by
    by_contra hm
    simp [isLowerHexChar, hm] at h
  simp only [lowerHexChars, decimalChars, List.mem_append] at hm
  rcases hm with hm | hm <;> fin_cases hm <;> decide

/-- The first matching default rule carries one of the three policy
actions. -/
theorem first_matching_rule_default (sd : ModelScoresData) :
    (first_matching_rule sd default_policy_rules).1 = "block"
    ∨ (first_matching_rule sd default_policy_rules).1 = "hold"
    ∨ (first_matching_rule sd default_policy_rules).1 = "allow" := by
  simp only [first_matching_rule, default_policy_rules, default_block_rule,
    default_hold_rule, default_allow_rule]
  split_ifs <;> simp

/-- The watchlist override step keeps the action within
`{base action, hold, block}`. -/
theorem apply_watchlist_override_action (sd : ModelScoresData) (wl : List String)
    (base : String × List String) :
    (apply_watchlist_override sd wl base).1 = base.1
    ∨ (apply_watchlist_override sd wl base).1 = "hold"
    ∨ (apply_watchlist_override sd wl base).1 = "block" := by
  simp only [apply_watchlist_override]
  split_ifs <;> simp

/-- The anomaly override step keeps the action within
`{prior action, hold}`. -/
theorem apply_anomaly_override_action (flag : Bool) (reason : String)
    (ar : String × List String) :
    (apply_anomaly_override flag reason ar).1 = ar.1
    ∨ (apply_anomaly_override flag reason ar).1 = "hold" := by
  simp only [apply_anomaly_override]
  split_ifs <;> simp

/-- Under the default policy the action emitted by `make_decision` is one
of `allow`, `hold`, `block`. -/
theorem make_decision_action_domain (sd : ModelScoresData) (wl : List String)
    (ga : Bool) (u : String) :
    (make_decision sd wl ga u).action = "allow"
    ∨ (make_decision sd wl ga u).action = "hold"
    ∨ (make_decision sd wl ga u).action = "block" := by
  have h0 := first_matching_rule_default sd
  have h1 := apply_watchlist_override_action sd wl (first_matching_rule sd default_policy_rules)
  have h2 := apply_anomaly_override_action false "velocity_anomaly"
    (apply_watchlist_override sd wl (first_matching_rule sd default_policy_rules))
  have h3 := apply_anomaly_override_action ga "graph_anomaly"
    (apply_anomaly_override false "velocity_anomaly"
      (apply_watchlist_override sd wl (first_matching_rule sd default_policy_rules)))
  show (apply_anomaly_override ga "graph_anomaly" (apply_anomaly_override false
      "velocity_anomaly" (apply_watchlist_override sd wl
      (first_matching_rule sd default_policy_rules)))).1 = "allow"
    ∨ (apply_anomaly_override ga "graph_anomaly" (apply_anomaly_override false
      "velocity_anomaly" (apply_watchlist_override sd wl
      (first_matching_rule sd default_policy_rules)))).1 = "hold"
    ∨ (apply_anomaly_override ga "graph_anomaly" (apply_anomaly_override false
      "velocity_anomaly" (apply_watchlist_override sd wl
      (first_matching_rule sd default_policy_rules)))).1 = "block"
  rcases h3 with h3 | h3 <;> rw [h3]
  · rcases h2 with h2 | h2 <;> rw [h2]
    · rcases h1 with h1 | h1 | h1 <;> rw [h1] <;> tauto
    · tauto
  · tauto

/-- The case id computed by `make_decision` is exactly the conditional of
the source: a fresh `CASE-` id when the final action is `hold`, `block` or
`escalate`, and `None` otherwise. -/
theorem make_decision_case_id_eq (sd : ModelScoresData) (wl : List String)
    (ga : Bool) (u : String) :
    (make_decision sd wl ga u).case_id =
      (if (make_decision sd wl ga u).action = "hold"
          ∨ (make_decision sd wl ga u).action = "block"
          ∨ (make_decision sd wl ga u).action = "escalate"
        then some ("CASE-" ++ pyUpper u) else none) := rfl

/-- C8.  Case coupling under the default policy: `case_id` is `none` iff
the action is `allow`, and when the action is not `allow` the decision
carries a case identifier `CASE-` followed by 8 uppercase hexadecimal
characters (given that the drawn `uuid4` prefix is 8 lowercase hexadecimal
characters). -/
theorem make_decision_case_coupling (sd : ModelScoresData) (wl : List String)
    (ga : Bool) (u : String) (hlen : u.length = 8)
    (hhex : ∀ c ∈ u.data, isLowerHexChar c = true) :
    ((make_decision sd wl ga u).case_id = none ↔
      (make_decision sd wl ga u).action = "allow")
    ∧ ((make_decision sd wl ga u).action ≠ "allow" →
        (make_decision sd wl ga u).case_id = some ("CASE-" ++ pyUpper u)
        ∧ (pyUpper u).length = 8
        ∧ ∀ c ∈ (pyUpper u).data, isUpperHexChar c = true) := by
  have hdom := make_decision_action_domain sd wl ga u
  have hup : (pyUpper u).length = 8 ∧ ∀ c ∈ (pyUpper u).data, isUpperHexChar c = true := by
    constructor
    · show (u.data.map Char.toUpper).length = 8
      rw [List.length_map]
      exact hlen
    · intro c hc
      simp only [pyUpper, List.mem_map] at hc
      obtain ⟨c0, hc0, rfl⟩ := hc
      exact lowerHex_toUpper (hhex c0 hc0)
  rw [make_decision_case_id_eq]
  rcases hdom with h | h | h <;> rw [h]
  · have hc : ¬("allow" = "hold" ∨ "allow" = "block" ∨ "allow" = "escalate") := by decide
    rw [if_neg hc]
    exact ⟨by simp, fun hna => absurd rfl hna⟩
  · have hc : ("hold" = "hold" ∨ "hold" = "block" ∨ "hold" = "escalate") := by decide
    rw [if_pos hc]
    exact ⟨⟨fun hsome => Option.noConfusion hsome, fun hallow => absurd hallow (by decide)⟩,
      fun _ => ⟨rfl, hup.1, hup.2⟩⟩
  · have hc : ("block" = "hold" ∨ "block" = "block" ∨ "block" = "escalate") := by decide
    rw [if_pos hc]
    exact ⟨⟨fun hsome => Option.noConfusion hsome, fun hallow => absurd hallow (by decide)⟩,
      fun _ => ⟨rfl, hup.1, hup.2⟩⟩

/-- Witness for C8 at a concrete decision: calibrated 0.95, no side
signals, uuid prefix `1a2b3c4d`. -/
theorem make_decision_case_coupling_witness :
    ((make_decision ⟨95/100, 1/2, 1/2, 1/2, 1/2⟩ [] false "1a2b3c4d").case_id = none ↔
      (make_decision ⟨95/100, 1/2, 1/2, 1/2, 1/2⟩ [] false "1a2b3c4d").action = "allow") :=
  (make_decision_case_coupling ⟨95/100, 1/2, 1/2, 1/2, 1/2⟩ [] false "1a2b3c4d"
    (by decide) (by decide)).1

/-! ## Drift and calibration metrics (`model-monitor-svc/app/metrics.py`,
`model-monitor-svc/main.py`) -/

/-- Python `min` over a nonempty list (the 0 default is never reached under
the guards of `psi`). -/
def listMin : List ℚ → ℚ
  | [] => 0
  | x :: xs => xs.foldl min x

/-- Python `max` over a nonempty list. -/
def listMax : List ℚ → ℚ
  | [] => 0
  | x :: xs => xs.foldl max x

/-- One bin probability of `psi`: the fraction of values in `[lo, hi)`,
floored at `1e-6`. -/
def binProb (xs : List ℚ) (lo hi : ℚ) : ℚ :=
  max (1/1000000)
    (((xs.filter fun v => if lo ≤ v ∧ v < hi then true else false).length : ℚ)
      / (xs.length : ℚ))

/-- One summand of `psi`: `(rp - cp) * (0.0 if cp == 0 else log(rp / cp))`
for bin `i` of width `w` starting at `mn`. -/
noncomputable def psiTerm (ref cur : List ℚ) (mn w : ℚ) (i : ℕ) : ℝ :=
  let lo := mn + (i : ℚ) * w
  let hi := mn + ((i : ℚ) + 1) * w
  let rp := binProb ref lo hi
  let cp := binProb cur lo hi
  ((rp - cp : ℚ) : ℝ) * (if cp = 0 then 0 else Real.log ((rp : ℝ) / (cp : ℝ)))

/-- Embedding of `psi` from `model-monitor-svc/app/metrics.py`: zero when
either sample is smaller than the bin count or when all values coincide,
otherwise the sum over 10 equal-width bins of
`(p_ref - p_cur) * ln(p_ref / p_cur)` with probabilities floored at
`1e-6`. -/
noncomputable def psi (ref cur : List ℚ) (bins : ℕ := 10) : ℝ :=
  if ref.length < bins ∨ cur.length < bins then 0
  else if max (listMax ref) (listMax cur) = min (listMin ref) (listMin cur) then 0
  else
    Finset.sum (Finset.range bins)
      (psiTerm ref cur (min (listMin ref) (listMin cur))
        ((max (listMax ref) (listMax cur) - min (listMin ref) (listMin cur)) / (bins : ℚ)))

/-- The bin probabilities are strictly positive (they are floored at
`1e-6`). -/
theorem binProb_pos (xs : List ℚ) (lo hi : ℚ) : 0 < binProb xs lo hi :=
  lt_of_lt_of_le (by norm_num) (le_max_left _ _)

/-- For positive reals, `(a - b) * log (a / b)` is nonnegative: both factors
share their sign. -/
theorem sub_mul_log_div_nonneg {a b : ℝ} (ha : 0 < a) (hb : 0 < b) :
    0 ≤ (a - b) * Real.log (a / b) := by
  rcases le_total b a with h | h
  · apply mul_nonneg (by linarith)
    apply Real.log_nonneg
    rw [le_div_iff₀ hb]
    linarith
  · have h1 : a - b ≤ 0 := by linarith
    have h2 : Real.log (a / b) ≤ 0 := by
      apply Real.log_nonpos (by positivity)
      rw [div_le_one hb]
      exact h
    have h3 := mul_nonneg (neg_nonneg.mpr h1) (neg_nonneg.mpr h2)
    rwa [neg_mul_neg] at h3

/-- Every `psi` summand is nonnegative. -/
theorem psiTerm_nonneg (ref cur : List ℚ) (mn w : ℚ) (i : ℕ) :
    0 ≤ psiTerm ref cur mn w i := by
  show 0 ≤ ((binProb ref _ _ - binProb cur _ _ : ℚ) : ℝ) * _
  rw [if_neg (ne_of_gt (binProb_pos cur _ _))]
  have hr : (0 : ℝ) < ((binProb ref (mn + (i : ℚ) * w) (mn + ((i : ℚ) + 1) * w) : ℚ) : ℝ) := by
    exact_mod_cast binProb_pos ref _ _
  have hc : (0 : ℝ) < ((binProb cur (mn + (i : ℚ) * w) (mn + ((i : ℚ) + 1) * w) : ℚ) : ℝ) := by
    exact_mod_cast binProb_pos cur _ _
  have := sub_mul_log_div_nonneg hr hc
  push_cast
  push_cast at this
  exact this

/-- A `psi` summand of a list against itself vanishes. -/
theorem psiTerm_self (xs : List ℚ) (mn w : ℚ) (i : ℕ) :
    psiTerm xs xs mn w i = 0 := by
  show ((binProb xs _ _ - binProb xs _ _ : ℚ) : ℝ) * _ = 0
  rw [sub_self]
  push_cast
  rw [zero_mul]

/-- C9.  PSI symmetry and nonnegativity: for a sample with at least as many
observations as bins, `psi(A, A)` is (exactly 0 and hence) below `1e-9`,
and `psi(A, B)` is nonnegative for every pair of samples. -/
theorem psi_symmetry_nonneg :
    (∀ A : List ℚ, 10 ≤ A.length → psi A A < 1/1000000000)
    ∧ (∀ A B : List ℚ, 0 ≤ psi A B) := by
  constructor
  · intro A _
    have hz : psi A A = 0 := by
      unfold psi
      split_ifs with h1 h2
      · rfl
      · rfl
      · exact Finset.sum_eq_zero fun i _ => psiTerm_self A _ _ i
    rw [hz]
    norm_num
  · intro A B
    unfold psi
    split_ifs with h1 h2
    · exact le_refl 0
    · exact le_refl 0
    · exact Finset.sum_nonneg fun i _ => psiTerm_nonneg A B _ _ i

/-- Witness for C9 at a concrete 10-element sample. -/
theorem psi_symmetry_nonneg_witness :
    psi [0, 1, 2, 3, 4, 5, 6, 7, 8, 9] [0, 1, 2, 3, 4, 5, 6, 7, 8, 9] < 1/1000000000
    ∧ 0 ≤ psi [0, 1, 2, 3, 4, 5, 6, 7, 8, 9] [3, 1, 2, 0, 4, 5, 6, 7, 8, 9] :=
  ⟨psi_symmetry_nonneg.1 [0, 1, 2, 3, 4, 5, 6, 7, 8, 9] (by decide),
   psi_symmetry_nonneg.2 [0, 1, 2, 3, 4, 5, 6, 7, 8, 9] [3, 1, 2, 0, 4, 5, 6, 7, 8, 9]⟩

/-- Embedding of `brier_score` from `model-monitor-svc/app/metrics.py`:
`-1` on empty or mismatched inputs, otherwise the mean of `(p - y)²` over
`zip(y_true, y_prob)`. -/
def brier_score (y_true y_prob : List ℚ) : ℚ :=
  if y_true = [] ∨ y_prob = [] ∨ y_true.length ≠ y_prob.length then -1
  else ((y_true.zip y_prob).map fun yp => (yp.2 - yp.1)^2).sum / (y_true.length : ℚ)

/-- The self-labels of `calculate_calibration_metrics`
(`model-monitor-svc/main.py`): `true_labels = (scores > 0.5).astype(int)`. -/
def self_labels (scores : List ℚ) : List ℚ :=
  scores.map fun p => if p > 1/2 then 1 else 0

/-- Zipping the self-labels with the scores pairs each score with its own
threshold label. -/
theorem self_labels_zip (s : List ℚ) :
    (self_labels s).zip s = s.map fun p => ((if p > 1/2 then (1:ℚ) else 0), p) := by
  induction s with
  | nil => rfl
  | cons a t ih => simp [self_labels] at ih ⊢; exact ih

/-- C10.  Under self-labeling `y = (p > 0.5)`, each squared error is at most
`1/4`, so the Brier score over any nonempty buffer of scores in `[0, 1]` is
at most `0.25` and the alert condition `Brier > 0.25` can never hold. -/
theorem calibration_brier_bound (scores : List ℚ) (hne : scores ≠ [])
    (hrange : ∀ p ∈ scores, 0 ≤ p ∧ p ≤ 1) :
    brier_score (self_labels scores) scores ≤ 1/4
    ∧ ¬ (1/4 < brier_score (self_labels scores) scores) := by
  have hlen : (self_labels scores).length = scores.length := List.length_map _ _
  have hcond : ¬(self_labels scores = [] ∨ scores = []
      ∨ (self_labels scores).length ≠ scores.length) := by
    push_neg
    refine ⟨?_, hne, by rw [hlen]⟩
    intro hmapnil
    exact hne (List.map_eq_nil_iff.mp hmapnil)
  have hbound : brier_score (self_labels scores) scores ≤ 1/4 := by
    rw [brier_score, if_neg hcond, self_labels_zip, List.map_map]
    have hn : (0 : ℚ) < ((self_labels scores).length : ℚ) := by
      rw [hlen]
      exact_mod_cast List.length_pos.mpr hne
    rw [div_le_iff₀ hn]
    have hterm : ∀ q ∈ scores.map ((fun yp : ℚ × ℚ => (yp.2 - yp.1)^2) ∘
        fun p => ((if p > 1/2 then (1:ℚ) else 0), p)), q ≤ 1/4 := by
      intro q hq
      rw [List.mem_map] at hq
      obtain ⟨p, hp, rfl⟩ := hq
      obtain ⟨h0, h1⟩ := hrange p hp
      show (p - if p > 1/2 then (1:ℚ) else 0)^2 ≤ 1/4
      split_ifs with hgt
      · nlinarith
      · nlinarith
    have hsum := List.sum_le_card_nsmul _ _ hterm
    rw [List.length_map] at hsum
    rw [hlen]
    calc (scores.map ((fun yp : ℚ × ℚ => (yp.2 - yp.1)^2) ∘
          fun p => ((if p > 1/2 then (1:ℚ) else 0), p))).sum
        ≤ scores.length • ((1:ℚ)/4) := hsum
      _ = 1/4 * (scores.length : ℚ) := by rw [nsmul_eq_mul]; ring
  exact ⟨hbound, not_lt.mpr hbound⟩

/-- Witness for C10 at a concrete score buffer. -/
theorem calibration_brier_bound_witness :
    brier_score (self_labels [9/10, 2/10, 1/2, 1]) [9/10, 2/10, 1/2, 1] ≤ 1/4 :=
  (calibration_brier_bound [9/10, 2/10, 1/2, 1] (by decide) (by norm_num)).1

/-! ## SHA-256 (executable, over byte lists; used by the audit service
model below).  Words are naturals reduced mod `2^32`. -/

/-- Truncation to a 32-bit word. -/
def w32 (x : ℕ) : ℕ := x % 4294967296

/-- Right rotation of a 32-bit word. -/
def rotr32 (n x : ℕ) : ℕ := w32 ((x >>> n) ||| (x <<< (32 - n)))

/-- The big sigma-0 function of SHA-256. -/
def bsig0 (x : ℕ) : ℕ := rotr32 2 x ^^^ rotr32 13 x ^^^ rotr32 22 x

/-- The big sigma-1 function of SHA-256. -/
def bsig1 (x : ℕ) : ℕ := rotr32 6 x ^^^ rotr32 11 x ^^^ rotr32 25 x

/-- The small sigma-0 function of SHA-256. -/
def ssig0 (x : ℕ) : ℕ := rotr32 7 x ^^^ rotr32 18 x ^^^ (x >>> 3)

/-- The small sigma-1 function of SHA-256. -/
def ssig1 (x : ℕ) : ℕ := rotr32 17 x ^^^ rotr32 19 x ^^^ (x >>> 10)

/-- The choice function of the SHA-256 round. -/
def chFn (e f g : ℕ) : ℕ := (e &&& f) ^^^ ((e ^^^ 4294967295) &&& g)

/-- The majority function of the SHA-256 round. -/
def majFn (a b c : ℕ) : ℕ := (a &&& b) ^^^ (a &&& c) ^^^ (b &&& c)

/-- The 64 SHA-256 round constants (FIPS 180-4, written in decimal). -/
def K256 : List ℕ :=
  [1116352408, 1899447441, 3049323471, 3921009573, 961987163, 1508970993,
   2453635748, 2870763221, 3624381080, 310598401, 607225278, 1426881987,
   1925078388, 2162078206, 2614888103, 3248222580, 3835390401, 4022224774,
   264347078, 604807628, 770255983, 1249150122, 1555081692, 1996064986,
   2554220882, 2821834349, 2952996808, 3210313671, 3336571891, 3584528711,
   113926993, 338241895, 666307205, 773529912, 1294757372, 1396182291,
   1695183700, 1986661051, 2177026350, 2456956037, 2730485921, 2820302411,
   3259730800, 3345764771, 3516065817, 3600352804, 4094571909, 275423344,
   430227734, 506948616, 659060556, 883997877, 958139571, 1322822218,
   1537002063, 1747873779, 1955562222, 2024104815, 2227730452, 2361852424,
   2428436474, 2756734187, 3204031479, 3329325298]

/-- The eight 32-bit working registers of SHA-256. -/
structure Hash8 where
  a : ℕ
  b : ℕ
  c : ℕ
  d : ℕ
  e : ℕ
  f : ℕ
  g : ℕ
  h : ℕ

/-- The SHA-256 initial hash value (FIPS 180-4, written in decimal). -/
def initH : Hash8 :=
  ⟨1779033703, 3144134277, 1013904242, 2773480762,
   1359893119, 2600822924, 528734635, 1541459225⟩

/-- The `k` big-endian bytes of `n`. -/
def toBytesBE (k : ℕ) (n : ℕ) : List ℕ :=
  (List.range k).reverse.map fun i => (n >>> (8 * i)) % 256

/-- SHA-256 message padding: a `0x80` byte, zeros to 56 mod 64, and the
bit length as 8 big-endian bytes. -/
def padMessage (msg : List ℕ) : List ℕ :=
  let len := msg.length
  let zeros := (120 - ((len + 1) % 64)) % 64
  msg ++ [128] ++ List.replicate zeros 0 ++ toBytesBE 8 (len * 8)

/-- Big-endian 32-bit words from a byte list. -/
def bytesToWords : List ℕ → List ℕ
  | b0 :: b1 :: b2 :: b3 :: rest =>
    (b0 * 16777216 + b1 * 65536 + b2 * 256 + b3) :: bytesToWords rest
  | _ => []

/-- Split a byte list into 64-byte blocks (fuel-structured so that it
reduces definitionally). -/
def toBlocksAux : ℕ → List ℕ → List (List ℕ)
  | 0, _ => []
  | _, [] => []
  | fuel + 1, x :: xs => ((x :: xs).take 64) :: toBlocksAux fuel ((x :: xs).drop 64)

/-- Split a byte list into 64-byte blocks. -/
def toBlocks (l : List ℕ) : List (List ℕ) := toBlocksAux l.length l

/-- Extend the 16 block words (given reversed, most recent first) by `n`
schedule words. -/
def extendWords : List ℕ → ℕ → List ℕ
  | ws, 0 => ws
  | ws, n + 1 =>
    extendWords
      (w32 (ssig1 (ws.getD 1 0) + ws.getD 6 0 + ssig0 (ws.getD 14 0) + ws.getD 15 0) :: ws) n

/-- The 64-word message schedule of a block. -/
def scheduleWords (block : List ℕ) : List ℕ :=
  (extendWords (bytesToWords block).reverse 48).reverse

/-- One SHA-256 compression round with round constant and schedule word
`kw`. -/
def compressStep (st : Hash8) (kw : ℕ × ℕ) : Hash8 :=
  let t1 := w32 (st.h + bsig1 st.e + chFn st.e st.f st.g + kw.1 + kw.2)
  let t2 := w32 (bsig0 st.a + majFn st.a st.b st.c)
  ⟨w32 (t1 + t2), st.a, st.b, st.c, w32 (st.d + t1), st.e, st.f, st.g⟩

/-- Process one 64-byte block: 64 compression rounds, then add the result
to the incoming state. -/
def processBlock (st : Hash8) (block : List ℕ) : Hash8 :=
  let ws := scheduleWords block
  let r := (K256.zip ws).foldl compressStep st
  ⟨w32 (st.a + r.a), w32 (st.b + r.b), w32 (st.c + r.c), w32 (st.d + r.d),
   w32 (st.e + r.e), w32 (st.f + r.f), w32 (st.g + r.g), w32 (st.h + r.h)⟩

/-- The SHA-256 digest of a byte list, as 32 bytes. -/
def sha256Bytes (msg : List ℕ) : List ℕ :=
  let st := (toBlocks (padMessage msg)).foldl processBlock initH
  ([st.a, st.b, st.c, st.d, st.e, st.f, st.g, st.h].map (toBytesBE 4)).flatten

/-- A lowercase hexadecimal digit. -/
def hexDigit (n : ℕ) : Char :=
  (['0','1','2','3','4','5','6','7','8','9'] ++ ['a','b','c','d','e','f']).getD n '0'

/-- A byte as two lowercase hexadecimal digits. -/
def byteToHex (b : ℕ) : List Char := [hexDigit (b / 16), hexDigit (b % 16)]

/-- The SHA-256 digest as Python's `hashlib.sha256(...).hexdigest()`. -/
def sha256Hex (msg : List ℕ) : String := ⟨((sha256Bytes msg).map byteToHex).flatten⟩

/-- The UTF-8 bytes of an ASCII string (every string hashed by the audit
service model is ASCII, where UTF-8 bytes are the code points). -/
def strBytes (s : String) : List ℕ := s.data.map Char.toNat

set_option maxRecDepth 10000 in
/-- The standard `abc` test vector, validating the SHA-256 embedding. -/
theorem sha256Hex_abc :
    sha256Hex (strBytes "abc") =
      "ba7816bf8f01cfea414140de5dae2223b00361a396177a9cb410ff61f20015ad" := by
  decide

/-! ## JSON values and Python `json.dumps(..., indent=2)`
(`audit-svc/main.py` serializes with insertion-ordered keys when storing and
with `sort_keys=True` when verifying).  The payloads exercised here are
ASCII strings and objects, for which `json.dumps` needs no character
escaping. -/

/-- A JSON value: a string or an object with insertion-ordered fields (the
shapes the audit evidence wrappers are built from). -/
inductive JVal where
  | str (s : String)
  | obj (fields : List (String × JVal))

/-- An indentation of `n` spaces. -/
def indentStr (n : ℕ) : String := ⟨List.replicate n ' '⟩

mutual
/-- Python `json.dumps(v, indent=2)` of a value at nesting level `lvl`:
strings are quoted verbatim, empty objects print as `\x7b\x7d`, and
non-empty objects put each field on its own line indented two spaces
deeper, closing at the parent indentation. -/
def dumpsVal (lvl : ℕ) : JVal → String
  | .str s => "\x22" ++ s ++ "\x22"
  | .obj [] => "\x7b\x7d"
  | .obj (f :: fs) =>
    "\x7b\n" ++ dumpsFields lvl (f :: fs) ++ "\n" ++ indentStr (2 * lvl) ++ "\x7d"

/-- The comma-and-newline separated field lines of an object at nesting
level `lvl`. -/
def dumpsFields (lvl : ℕ) : List (String × JVal) → String
  | [] => ""
  | [(k, v)] =>
    indentStr (2 * (lvl + 1)) ++ "\x22" ++ k ++ "\x22: " ++ dumpsVal (lvl + 1) v
  | (k, v) :: f :: fs =>
    indentStr (2 * (lvl + 1)) ++ "\x22" ++ k ++ "\x22: " ++ dumpsVal (lvl + 1) v
      ++ ",\n" ++ dumpsFields lvl (f :: fs)
end

/-- Lexicographic code-point comparison of character lists — Python's
string ordering, used by `sorted` and hence by `sort_keys`. -/
def charListLe : List Char → List Char → Bool
  | [], _ => true
  | _ :: _, [] => false
  | a :: as, b :: bs =>
    if a.toNat < b.toNat then true
    else if b.toNat < a.toNat then false
    else charListLe as bs

/-- Python's `≤` on strings. -/
def strLe (a b : String) : Bool := charListLe a.data b.data

/-- Ordered insertion of a field by key. -/
def insertField (kv : String × JVal) : List (String × JVal) → List (String × JVal)
  | [] => [kv]
  | kv' :: rest =>
    if strLe kv.1 kv'.1 then kv :: kv' :: rest else kv' :: insertField kv rest

mutual
/-- Sort every object's fields by key, recursively — the reordering
`json.dumps(..., sort_keys=True)` applies. -/
def sortJson : JVal → JVal
  | .str s => .str s
  | .obj fs => .obj (sortFields fs)

/-- Insertion sort of a field list by key, sorting the values
recursively. -/
def sortFields : List (String × JVal) → List (String × JVal)
  | [] => []
  | (k, v) :: rest => insertField (k, sortJson v) (sortFields rest)
end

/-- Python `json.dumps(v, indent=2)`. -/
def pyDumps (v : JVal) : String := dumpsVal 0 v

/-- Python `json.dumps(v, sort_keys=True, indent=2)`. -/
def pyDumpsSorted (v : JVal) : String := dumpsVal 0 (sortJson v)

/-! ## Audit service (`audit-svc/main.py`) -/

/-- Association lookup in a JSON object's fields (Python `dict.get`). -/
def jsonLookup : List (String × JVal) → String → Option JVal
  | [], _ => none
  | (k, v) :: rest, key => if k = key then some v else jsonLookup rest key

/-- The `data.get("event_id", "unknown")` read of `store_evidence_bundle`. -/
def payloadEventId : JVal → String
  | .obj fs =>
    match jsonLookup fs "event_id" with
    | some (.str s) => s
    | _ => "unknown"
  | _ => "unknown"

/-- The `EvidenceBundle` record built by `store_evidence_bundle`. -/
structure EvidenceBundle where
  bundle_id : String
  event_id : String
  evidence_type : String
  data : JVal
  hash : String
  size_bytes : ℕ

/-- Embedding of `store_evidence_bundle` from `audit-svc/main.py`: wrap the
payload in the `evidence_data` dict (keys in insertion order: `bundle_id`,
`event_id`, `evidence_type`, `data`, `created_at`, `metadata`), serialize it
with `json.dumps(evidence_data, indent=2)` — without `sort_keys` — hash
those bytes with SHA-256, and store the JSON object under a date-sharded
key.  The drawn `bundle_id` and the `created_at` timestamp are inputs. -/
def store_evidence_bundle (data : JVal) (evidence_type bundle_id created_at : String) :
    EvidenceBundle :=
  let event_id := payloadEventId data
  let evidence_data : JVal := .obj
    [("bundle_id", .str bundle_id),
     ("event_id", .str event_id),
     ("evidence_type", .str evidence_type),
     ("data", data),
     ("created_at", .str created_at),
     ("metadata", .obj [("service", .str "audit-svc"), ("version", .str "1.0.0")])]
  let json_data := pyDumps evidence_data
  { bundle_id := bundle_id, event_id := event_id, evidence_type := evidence_type,
    data := evidence_data, hash := sha256Hex (strBytes json_data),
    size_bytes := (strBytes json_data).length }

/-- The verdict triple returned by `verify_audit_integrity`. -/
structure VerifyResult where
  integrity_status : String
  calculated_hash : String
  stored_hash : String

/-- Embedding of `verify_audit_integrity` from `audit-svc/main.py`, given
the evidence object read back unmodified from storage (`json.loads` of the
stored bytes, which round-trips to the same value) and the stored hash from
the audit index: recompute SHA-256 over
`json.dumps(evidence_data, sort_keys=True, indent=2)` and compare. -/
def verify_audit_integrity (evidence_data : JVal) (stored_hash : String) : VerifyResult :=
  let evidence_json := pyDumpsSorted evidence_data
  let calculated_hash := sha256Hex (strBytes evidence_json)
  { integrity_status := if calculated_hash = stored_hash then "verified" else "compromised",
    calculated_hash := calculated_hash, stored_hash := stored_hash }

/-- A concrete stored bundle: payload `\x7b"event_id": "evt-1"\x7d`, a fixed
uuid4 and timestamp. -/
def c1Bundle : EvidenceBundle :=
  store_evidence_bundle (.obj [("event_id", .str "evt-1")]) "audit_event"
    "c0ffee00-0000-4000-8000-000000000000" "2025-01-01T00:00:00"

set_option maxRecDepth 100000 in
/-- C1.  The audit round-trip fails on unmodified data: the hash recorded
by `store_evidence_bundle` is computed over the insertion-ordered dump,
while `verify_audit_integrity` recomputes over the canonical (sorted-key)
dump, so verification of the untouched stored bundle reports
`compromised` with a calculated hash differing from the stored one —
never `verified` as the spec claims. -/
theorem audit_round_trip_compromised :
    (verify_audit_integrity c1Bundle.data c1Bundle.hash).integrity_status = "compromised"
    ∧ (verify_audit_integrity c1Bundle.data c1Bundle.hash).calculated_hash ≠ c1Bundle.hash := by
  constructor
  · decide
  · decide

end FraudOps
